import Mathlib

/-
Shallow embedding of the Streamlit application `app.py`
(Gemini Historical Artifact Description).

The program is a thin client: it resolves an API key from two environment
variables at startup, exposes a fixed catalog of six prompt templates,
composes the selected template with optional free text, and on submit either
reports a validation error or issues exactly one generation request and
renders the heading plus the raw response text.

The remote model endpoint is modelled as an oracle `remote : GenCall →
Except String String` passed to the handler; the list of `GenCall` values
returned alongside the rendered outcome records every generation request the
handler issued, so invocation counts can be stated.
-/

namespace ArtifactApp

/-- The single-quote character, used when rendering a Python `KeyError`
as `str(e)` (Python renders the missing key in quotes). -/
def sq : String := String.singleton (Char.ofNat 39)

/-- Process environment restricted to the two variables the program reads
(`app.py` lines 12 and 99).  `none` models an unset variable, `some s`
a variable set to `s` (possibly the empty string). -/
structure Env where
  gemini : Option String
  google : Option String

/-- Python `a or b` on `os.getenv` results: `None` and `""` are falsy, so
the result is the first operand that is set and non-empty, else `b`. -/
def pyOr (a b : Option String) : Option String :=
  match a with
  | none => b
  | some s => if s.isEmpty then b else some s

/-- Python `a or b` on strings: `""` is falsy. Models `input_text or ""`
(`app.py` line 110). -/
def pyOrStr (a b : String) : String :=
  if a.isEmpty then b else a

/-- `os.getenv("GEMINI_API_KEY") or os.getenv("GOOGLE_API_KEY")`
(`app.py` lines 12 and 99). -/
def resolveApiKey (env : Env) : Option String :=
  pyOr env.gemini env.google

/-- Python truthiness test `not api_key` on an optional string:
true when the key is unset or the empty string (`app.py` line 100). -/
def keyAbsent : Option String → Bool
  | none => true
  | some s => s.isEmpty

/-- The genai client object; its only observable datum here is the API key
it was constructed with. -/
structure Client where
  api_key : Option String

/-- `client = genai.Client(api_key=os.getenv("GEMINI_API_KEY") or
os.getenv("GOOGLE_API_KEY"))` (`app.py` line 12).  Streamlit re-executes
the whole script on every interaction, so this line runs during each
script execution and reads that execution's environment — the same
environment the submit handler reads later in the same pass
(`load_dotenv` at line 9 has already run before either read). -/
def scriptClient (env : Env) : Client :=
  { api_key := resolveApiKey env }

/-- The prompt catalog `PROMPT_OPTIONS` (`app.py` lines 15-22), as an
ordered association list (Python dicts preserve insertion order).  A Lean
`def` is immutable, matching the catalog never being mutated at runtime.
Apostrophes in two templates are spliced in via `sq`. -/
def PROMPT_OPTIONS : List (String × String) := [
  ("Describe", "You are a historian. Provide a comprehensive description of the historical artifact in the image. Include its physical appearance, materials, craftsmanship, and overall significance."),
  ("Identify & Classify", "You are an expert art historian. Identify and classify the artifact in the image. Specify its type, estimated era or period, materials used, cultural origin, and any distinguishing features that help with identification."),
  ("Historical Context", "You are a historian. Analyze the historical context of this artifact. Explain the time period it comes from, the historical events or culture it relates to, and how it would have been used or valued in its time."),
  ("Origin & Significance", "You are a cultural historian. Describe the origin of this artifact—where it likely came from, the culture that produced it—and explain its historical and cultural significance. Why does it matter today?"),
  ("Cultural Analysis", "You are an expert in cultural heritage. Analyze the artifact" ++ sq ++ "s cultural meaning, symbolism, religious or social significance, and how it reflects the values or beliefs of the people who created it."),
  ("Conservation & Condition", "You are a museum conservator. Assess the artifact" ++ sq ++ "s current condition, visible signs of wear or aging, potential materials and techniques used in its creation, and any conservation considerations or restoration that might be relevant.")]

/-- `options=list(PROMPT_OPTIONS.keys())` passed to the selectbox
(`app.py` line 81). -/
def selectbox_options : List String := PROMPT_OPTIONS.map Prod.fst

/-- The selectbox default: `index=0` selects the first option
(`app.py` line 82). -/
def default_prompt_choice : String := selectbox_options.getD 0 ""

/-- The template for the "Identify & Classify" option (second catalog
entry, `app.py` line 17). -/
def identifyClassifyTemplate : String :=
  "You are an expert art historian. Identify and classify the artifact in the image. Specify its type, estimated era or period, materials used, cultural origin, and any distinguishing features that help with identification."

/-- The characters Python treats as whitespace (`str.isspace`, the set
`str.strip()` removes): `\t` `\n` `\x0b` `\x0c` `\r` (`0x09`-`0x0d`), the
separators `0x1c`-`0x1f`, the space `0x20`, next line `0x85`, no-break
space `0xa0`, ogham space `0x1680`, the typographic spaces
`0x2000`-`0x200a`, line and paragraph separators `0x2028`/`0x2029`,
narrow no-break space `0x202f`, medium mathematical space `0x205f`, and
ideographic space `0x3000`. -/
def pyIsSpace (c : Char) : Bool :=
  (Nat.ble 9 c.toNat && Nat.ble c.toNat 13) ||
  (Nat.ble 28 c.toNat && Nat.ble c.toNat 32) ||
  c.toNat == 133 || c.toNat == 160 || c.toNat == 0x1680 ||
  (Nat.ble 0x2000 c.toNat && Nat.ble c.toNat 0x200a) ||
  c.toNat == 0x2028 || c.toNat == 0x2029 ||
  c.toNat == 0x202f || c.toNat == 0x205f || c.toNat == 0x3000

/-- Python `str.strip()` with no arguments: remove leading and trailing
whitespace characters, with whitespace as `pyIsSpace`. -/
def pyStrip (s : String) : String :=
  ⟨((s.data.dropWhile pyIsSpace).reverse.dropWhile pyIsSpace).reverse⟩

/-- The query composer (`app.py` line 26):
`full_prompt = f"{prompt}\n\nAdditional context from user: {input_text}"
if input_text.strip() else prompt`.  A Python string is truthy exactly when
it is non-empty. -/
def composePrompt (input_text prompt : String) : String :=
  if (pyStrip input_text).isEmpty then prompt
  else prompt ++ "\n\nAdditional context from user: " ++ input_text

/-- One outbound generation request: the data `client.models.generate_content`
is called with (`app.py` lines 29-32), plus the API key the client carries. -/
structure GenCall where
  api_key : Option String
  model : String
  full_prompt : String
  image_bytes : List Nat
  mime_type : String

/-- The request `get_gemini_response` builds and issues
(`app.py` lines 26-32): composed prompt as text content, the image bytes
tagged with their MIME type, the fixed model identifier. -/
def geminiCall (client : Client) (input_text : String) (image_bytes : List Nat)
    (mime_type prompt : String) : GenCall :=
  { api_key := client.api_key
    model := "gemini-3-flash-preview"
    full_prompt := composePrompt input_text prompt
    image_bytes := image_bytes
    mime_type := mime_type }

/-- `get_gemini_response` (`app.py` lines 25-33): composes the prompt,
issues exactly one request to the remote endpoint, and returns the outcome
(`response.text` on success, the exception message on failure) together
with the list of requests issued. -/
def get_gemini_response (client : Client) (remote : GenCall → Except String String)
    (input_text : String) (image_bytes : List Nat) (mime_type prompt : String) :
    Except String String × List GenCall :=
  (remote (geminiCall client input_text image_bytes mime_type prompt),
   [geminiCall client input_text image_bytes mime_type prompt])

/-- An uploaded file as the submit handler sees it: `uploaded_file.getvalue()`
and `uploaded_file.type` (`app.py` lines 107 and 110). -/
structure UploadedFile where
  bytes : List Nat
  mime : String

/-- What one submission renders: exactly one of an error block
(`st.error`) or a result block (`st.subheader` heading plus the raw
response body rendered by `st.markdown`). -/
inductive Rendered where
  | error (msg : String)
  | result (heading : String) (body : String)

/-- The submit handler (`app.py` lines 98-117).  In order: re-resolve the
API key from the environment and fail with the configuration error if it is
falsy; fail with the input error if no file was uploaded; otherwise look up
the selected template (a `KeyError` would be caught by the surrounding
`try` and rendered as `Error: ` plus `str(e)`), issue one generation
request, and render either the heading `📜 Result: {prompt_choice}` with the
raw response text or `Error: ` plus the exception message.  Returns the
rendered block together with the list of generation requests issued. -/
def submitHandler (client : Client) (remote : GenCall → Except String String)
    (env : Env) (uploaded_file : Option UploadedFile)
    (prompt_choice input_text : String) : Rendered × List GenCall :=
  if keyAbsent (resolveApiKey env) then
    (.error "Add GEMINI_API_KEY or GOOGLE_API_KEY to your .env file.", [])
  else
    match uploaded_file with
    | none => (.error "Please upload an image first.", [])
    | some file =>
      match PROMPT_OPTIONS.lookup prompt_choice with
      | none => (.error ("Error: " ++ sq ++ prompt_choice ++ sq), [])
      | some selected_prompt =>
        match get_gemini_response client remote (pyOrStr input_text "")
            file.bytes file.mime selected_prompt with
        | (Except.ok text, calls) =>
          (.result ("📜 Result: " ++ prompt_choice) text, calls)
        | (Except.error e, calls) =>
          (.error ("Error: " ++ e), calls)

/-- One full execution of `app.py` on a submit interaction.  Streamlit
re-runs the script top to bottom on every interaction, so the client
construction (line 12) and the submit handler (lines 98-117) both read the
single environment `env` of that run: `load_dotenv` (line 9) has populated
the environment before either read, and nothing mutates it in between. -/
def scriptRun (remote : GenCall → Except String String) (env : Env)
    (uploaded_file : Option UploadedFile)
    (prompt_choice input_text : String) : Rendered × List GenCall :=
  submitHandler (scriptClient env) remote env uploaded_file prompt_choice
    input_text

lemma pyOrStr_empty_right (s : String) : pyOrStr s "" = s := by
  unfold pyOrStr
  by_cases h : s.isEmpty
  · simp [h, (String.isEmpty_iff s).mp h]
  · simp [h]

lemma lookup_identify :
    PROMPT_OPTIONS.lookup "Identify & Classify" = some identifyClassifyTemplate := by
  rfl

/-- C1: for every free-text input whose trimmed form is non-empty and every
template, the composed prompt is the template, a blank line, the fixed label
`Additional context from user: `, then the free text. -/
theorem composePrompt_nonempty (input_text prompt : String)
    (h : (pyStrip input_text).isEmpty = false) :
    composePrompt input_text prompt
      = prompt ++ "\n\n" ++ "Additional context from user: " ++ input_text := by
  unfold composePrompt
  rw [h]
  simp only [Bool.false_eq_true, if_false]
  congr 1
  rw [String.append_assoc]
  congr 1

/-- Witness for C1 at a concrete non-blank input. -/
theorem composePrompt_nonempty_witness :
    composePrompt " found in a temple " "Template."
      = "Template." ++ "\n\n" ++ "Additional context from user: " ++ " found in a temple " :=
  composePrompt_nonempty " found in a temple " "Template." (by decide)

/-- C2: for every free-text input that is empty or consists only of
whitespace characters, and every template, the composed prompt is the
template verbatim. -/
theorem composePrompt_blank (input_text prompt : String)
    (h : ∀ c ∈ input_text.data, pyIsSpace c = true) :
    composePrompt input_text prompt = prompt := by
  have h1 : input_text.data.dropWhile pyIsSpace = [] :=
    List.dropWhile_eq_nil_iff.mpr h
  unfold composePrompt pyStrip
  rw [h1]
  rfl

/-- Witness for C2 at a concrete whitespace-only input, including the
vertical tab and form feed that Python strips. -/
theorem composePrompt_blank_witness :
    composePrompt " \x0b\n\t\x0c   " "Template." = "Template." :=
  composePrompt_blank " \x0b\n\t\x0c   " "Template." (by decide)

/-- C6: API key resolution reads `GEMINI_API_KEY` (primary) and
`GOOGLE_API_KEY` (fallback) and yields the first non-empty value; in
particular, whenever the primary is unset or empty and the fallback is
non-empty, the resolved key is the fallback value. -/
theorem resolveApiKey_spec (env : Env) :
    (∀ s, env.gemini = some s → s.isEmpty = false → resolveApiKey env = some s) ∧
    ((env.gemini = none ∨ env.gemini = some "") →
      ∀ g, env.google = some g → g.isEmpty = false → resolveApiKey env = some g) := by
  constructor
  · intro s hs hne
    simp [resolveApiKey, pyOr, hs, hne]
  · rintro (h | h) g hg hne <;>
      simp [resolveApiKey, pyOr, h, hg, show ("" : String).isEmpty = true from rfl]

/-- Witness for C6: primary unset, fallback non-empty resolves to the
fallback value. -/
theorem resolveApiKey_spec_witness :
    resolveApiKey ⟨none, some "fallback-key"⟩ = some "fallback-key" :=
  (resolveApiKey_spec ⟨none, some "fallback-key"⟩).2 (Or.inl rfl)
    "fallback-key" rfl (by decide)

/-- C7: the prompt catalog has exactly six entries in a fixed order (a Lean
`def` cannot be mutated, matching the catalog never being mutated after
initialization), and the selectbox default (`index=0`) is the catalog's
first entry. -/
theorem prompt_catalog_fixed :
    PROMPT_OPTIONS.length = 6 ∧
    selectbox_options = ["Describe", "Identify & Classify", "Historical Context",
      "Origin & Significance", "Cultural Analysis", "Conservation & Condition"] ∧
    default_prompt_choice = "Describe" ∧
    selectbox_options.head? = some default_prompt_choice :=
  ⟨rfl, rfl, rfl, rfl⟩

/-- C10: every option offered by the selectbox (the catalog's keys) has a
successful catalog lookup, so `PROMPT_OPTIONS[prompt_choice]` in the
generation branch can never raise a missing-key error. -/
theorem lookup_succeeds_on_options (c : String) (hc : c ∈ selectbox_options) :
    (PROMPT_OPTIONS.lookup c).isSome = true := by
  fin_cases hc <;> rfl

/-- Witness for C10 at the default option. -/
theorem lookup_succeeds_on_options_witness :
    (PROMPT_OPTIONS.lookup "Describe").isSome = true :=
  lookup_succeeds_on_options "Describe" (by decide)

/-- C3: with no API key resolved at submit time, the handler renders the
configuration error message and issues no generation request, whatever the
uploaded file, selection and free text are (the key check precedes the
image check). -/
theorem no_key_shows_config_error (client : Client)
    (remote : GenCall → Except String String) (env : Env)
    (uploaded_file : Option UploadedFile) (prompt_choice input_text : String)
    (hk : keyAbsent (resolveApiKey env) = true) :
    submitHandler client remote env uploaded_file prompt_choice input_text
      = (.error "Add GEMINI_API_KEY or GOOGLE_API_KEY to your .env file.", []) := by
  simp [submitHandler, hk]

/-- Witness for C3: no key resolved but an image present still yields the
configuration error. -/
theorem no_key_shows_config_error_witness :
    submitHandler ⟨none⟩ (fun _ => Except.error "never called") ⟨none, none⟩
        (some ⟨[137, 80, 78, 71], "image/png"⟩) "Describe" ""
      = (.error "Add GEMINI_API_KEY or GOOGLE_API_KEY to your .env file.", []) :=
  no_key_shows_config_error ⟨none⟩ (fun _ => Except.error "never called")
    ⟨none, none⟩ (some ⟨[137, 80, 78, 71], "image/png"⟩) "Describe" "" rfl

/-- C4: with a key resolved but no uploaded image, the handler renders the
input error message and the model client is never invoked (the list of
generation requests is empty). -/
theorem no_image_shows_input_error (client : Client)
    (remote : GenCall → Except String String) (env : Env)
    (prompt_choice input_text : String)
    (hk : keyAbsent (resolveApiKey env) = false) :
    submitHandler client remote env none prompt_choice input_text
      = (.error "Please upload an image first.", []) := by
  simp [submitHandler, hk]

/-- Witness for C4 at a concrete environment with a key set. -/
theorem no_image_shows_input_error_witness :
    submitHandler ⟨some "key"⟩ (fun _ => Except.ok "text") ⟨some "key", none⟩
        none "Describe" ""
      = (.error "Please upload an image first.", []) :=
  no_image_shows_input_error ⟨some "key"⟩ (fun _ => Except.ok "text")
    ⟨some "key", none⟩ "Describe" "" rfl

/-- C5: when the generation request fails with message `m`, the handler
renders the error text `Error: ` followed by `m` (so the text contains `m`
behind a fixed label) and renders no result block (no heading or body);
being a total function, it does not crash. -/
theorem generation_failure_shows_error (client : Client)
    (remote : GenCall → Except String String) (env : Env) (file : UploadedFile)
    (prompt_choice input_text tmpl m : String)
    (hk : keyAbsent (resolveApiKey env) = false)
    (hp : PROMPT_OPTIONS.lookup prompt_choice = some tmpl)
    (hr : remote (geminiCall client input_text file.bytes file.mime tmpl)
      = Except.error m) :
    (submitHandler client remote env (some file) prompt_choice input_text).1
        = .error ("Error: " ++ m)
      ∧ ∀ hd bd, (submitHandler client remote env (some file) prompt_choice
          input_text).1 ≠ .result hd bd := by
  have key : (submitHandler client remote env (some file) prompt_choice
      input_text).1 = .error ("Error: " ++ m) := by
    simp only [submitHandler, hk, Bool.false_eq_true, if_false, hp,
      get_gemini_response, pyOrStr_empty_right, hr]
  refine ⟨key, fun hd bd hcon => ?_⟩
  rw [key] at hcon
  exact Rendered.noConfusion hcon

/-- Witness for C5: a simulated quota failure is rendered as the labelled
error text. -/
theorem generation_failure_shows_error_witness :
    (submitHandler ⟨some "key"⟩ (fun _ => Except.error "quota exceeded")
        ⟨some "key", none⟩ (some ⟨[1, 2], "image/png"⟩)
        "Identify & Classify" "found in a temple").1
      = Rendered.error ("Error: " ++ "quota exceeded") :=
  (generation_failure_shows_error ⟨some "key"⟩
    (fun _ => Except.error "quota exceeded") ⟨some "key", none⟩
    ⟨[1, 2], "image/png"⟩ "Identify & Classify" "found in a temple"
    identifyClassifyTemplate "quota exceeded" rfl lookup_identify rfl).1

/-- C8 counterexample: in the success scenario (key present, PNG bytes,
selection `Identify & Classify`, empty free text, response
`A bronze axe head.`) the rendered heading is
`📜 Result: Identify & Classify`, which is not the string
`Result: Identify & Classify` the claim states. -/
theorem success_heading_counterexample :
    (submitHandler ⟨some "key"⟩ (fun _ => Except.ok "A bronze axe head.")
        ⟨some "key", none⟩ (some ⟨[137, 80, 78, 71], "image/png"⟩)
        "Identify & Classify" "").1
      = Rendered.result "📜 Result: Identify & Classify" "A bronze axe head."
    ∧ ("📜 Result: Identify & Classify" : String) ≠ "Result: Identify & Classify" :=
  ⟨rfl, by decide⟩

/-- C8 (amended): in the success scenario the model client is invoked
exactly once, with the verbatim `Identify & Classify` template and the
image bytes, and the UI renders the heading `📜 Result: Identify & Classify`
(the selected label behind the fixed prefix `📜 Result: `) followed by the
raw response text as the body. -/
theorem success_renders_result (client : Client)
    (remote : GenCall → Except String String) (env : Env) (file : UploadedFile)
    (t : String)
    (hk : keyAbsent (resolveApiKey env) = false)
    (hr : remote (geminiCall client "" file.bytes file.mime identifyClassifyTemplate)
      = Except.ok t) :
    submitHandler client remote env (some file) "Identify & Classify" ""
      = (Rendered.result "📜 Result: Identify & Classify" t,
         [{ api_key := client.api_key
            model := "gemini-3-flash-preview"
            full_prompt := identifyClassifyTemplate
            image_bytes := file.bytes
            mime_type := file.mime }]) := by
  simp only [submitHandler, hk, Bool.false_eq_true, if_false, lookup_identify,
    get_gemini_response, pyOrStr_empty_right, hr]
  rfl

/-- Witness for the amended C8 at concrete inputs. -/
theorem success_renders_result_witness :
    submitHandler ⟨some "key"⟩ (fun _ => Except.ok "A bronze axe head.")
        ⟨some "key", none⟩ (some ⟨[137, 80, 78, 71], "image/jpeg"⟩)
        "Identify & Classify" ""
      = (Rendered.result "📜 Result: Identify & Classify" "A bronze axe head.",
         [{ api_key := some "key"
            model := "gemini-3-flash-preview"
            full_prompt := identifyClassifyTemplate
            image_bytes := [137, 80, 78, 71]
            mime_type := "image/jpeg" }]) :=
  success_renders_result ⟨some "key"⟩ (fun _ => Except.ok "A bronze axe head.")
    ⟨some "key", none⟩ ⟨[137, 80, 78, 71], "image/jpeg"⟩ "A bronze axe head."
    rfl rfl

/-- C9 counterexample: the claim predicts that when a key enters the
environment only after the process first started, validation passes while
the generation request still carries the absent startup key (`none`).  On
the interaction where that key is visible, the script re-executes and
line 12 rebuilds the client from the same environment line 99 validates:
the single request carries `some "late-key"`, not `none`, and that key is
not absent. -/
theorem stale_key_counterexample :
    (scriptRun (fun _ => Except.ok "text") ⟨some "late-key", none⟩
        (some ⟨[9, 9], "image/png"⟩) "Identify & Classify" "ctx").2.map
        GenCall.api_key = [some "late-key"]
    ∧ (scriptRun (fun _ => Except.ok "text") ⟨some "late-key", none⟩
        (some ⟨[9, 9], "image/png"⟩) "Identify & Classify" "ctx").2.map
        GenCall.api_key ≠ [(none : Option String)]
    ∧ keyAbsent (some "late-key") = false :=
  ⟨rfl, by decide, rfl⟩

/-- C9 (amended): the script re-executes in full on each interaction, so
the client is constructed (line 12) from the same environment submit-time
validation (line 99) reads; consequently every generation request issued
in a run carries exactly that run's resolved key, which passed validation
and is therefore not absent.  The stale-key divergence cannot occur. -/
theorem run_key_coherent (remote : GenCall → Except String String)
    (env : Env) (uploaded_file : Option UploadedFile)
    (prompt_choice input_text : String) :
    ∀ c ∈ (scriptRun remote env uploaded_file prompt_choice input_text).2,
      c.api_key = resolveApiKey env ∧ keyAbsent c.api_key = false := by
  intro c hc
  unfold scriptRun submitHandler at hc
  cases hkb : keyAbsent (resolveApiKey env) with
  | true =>
    rw [hkb] at hc
    simp at hc
  | false =>
    rw [hkb] at hc
    simp only [Bool.false_eq_true, if_false] at hc
    cases uploaded_file with
    | none => simp at hc
    | some file =>
      cases hl : PROMPT_OPTIONS.lookup prompt_choice with
      | none =>
        rw [hl] at hc
        simp at hc
      | some tmpl =>
        rw [hl] at hc
        simp only [get_gemini_response] at hc
        rcases hrem : remote (geminiCall (scriptClient env)
            (pyOrStr input_text "") file.bytes file.mime tmpl) with e | t
        all_goals
          rw [hrem] at hc
          simp at hc
          subst hc
          exact ⟨rfl, hkb⟩

/-- Witness for the amended C9: in a run whose environment holds a key, the
issued request carries that run's resolved key and it is not absent. -/
theorem run_key_coherent_witness :
    (geminiCall (scriptClient ⟨some "key", none⟩) "ctx" [9] "image/png"
        identifyClassifyTemplate).api_key = resolveApiKey ⟨some "key", none⟩
    ∧ keyAbsent (geminiCall (scriptClient ⟨some "key", none⟩) "ctx" [9]
        "image/png" identifyClassifyTemplate).api_key = false :=
  run_key_coherent (fun _ => Except.ok "text") ⟨some "key", none⟩
    (some ⟨[9], "image/png"⟩) "Identify & Classify" "ctx"
    (geminiCall (scriptClient ⟨some "key", none⟩) "ctx" [9] "image/png"
      identifyClassifyTemplate) (List.Mem.head [])

end ArtifactApp
